import Mathlib

/-!
Verification development for the capability-matching engine
(`substrate/cloud/matching/engine.py`, `substrate/cloud/matching/semantic_engine.py`,
`substrate/cloud/transparency/engine.py`, data model in `substrate/shared/models/core.py`).

Shallow embedding conventions:
* Python `float` scores are modelled as exact rationals (`ℚ`).
* Python `set` fields (`tags`) are modelled as `List String` representing the
  set's iteration order; where the source takes set cardinalities we pass
  through `Finset` so duplicate elements cannot be double counted.
* Python dict truthiness (`if self.availability:`) is modelled by a `Bool`
  field carrying the truthiness of the dict; `Dict[str, Any]` constraint maps
  are modelled as association lists from the key to the truthiness of the
  stored value, which is all the engine ever inspects.
* `uuid4` identifier defaults and `datetime` timestamps are not modelled: no
  modelled function reads them.
* The mutable matcher object is modelled as an explicit `MatcherState`
  threaded through the operations; `defaultdict` lookups performed with
  `.get(key, [])` (which never inserts a default entry) become lookups in a
  total function `String → List _`.
* f-string numeric interpolation inside human-facing strings is abbreviated
  to fixed strings: the engine only ever branches on whether these lists are
  empty, never on their contents.
-/

/-- `CapabilityType` enum of `core.py`. -/
inductive CapabilityType where
  | skill
  | resource
  | knowledge
  | network
  | time
  | funding
deriving DecidableEq

/-- The `.value` string of a `CapabilityType` member. -/
def CapabilityType.value : CapabilityType → String
  | .skill => "skill"
  | .resource => "resource"
  | .knowledge => "knowledge"
  | .network => "network"
  | .time => "time"
  | .funding => "funding"

/-- `PrivacyLevel` enum of `core.py`. -/
inductive PrivacyLevel where
  | publicLevel
  | networkLevel
  | privateLevel
  | confidentialLevel
deriving DecidableEq

/-- `ProblemDomain` enum of `core.py` (only the members the matching layer touches). -/
inductive ProblemDomain where
  | robotics
  | research
  | software
  | hardware
  | biology
  | climate
  | health
  | education
  | manufacturing
  | other
deriving DecidableEq

/-- `Capability` dataclass of `core.py` (matching-relevant fields). -/
structure Capability where
  capability_id : String
  type : CapabilityType
  name : String
  description : String
  proficiency : ℚ
  confidence : ℚ
  evidence : List String
  privacy_level : PrivacyLevel
  tags : List String
deriving DecidableEq

/-- `Need` dataclass of `core.py` (matching-relevant fields).  `constraints`
maps each key to the Python truthiness of its stored value. -/
structure Need where
  need_id : String
  type : CapabilityType
  name : String
  description : String
  urgency : ℚ
  importance : ℚ
  domain : ProblemDomain
  context : String
  constraints : List (String × Bool)
  tags : List String
deriving DecidableEq

/-- `UserProfile` dataclass of `core.py` (matching-relevant fields).
`availability` carries the truthiness of the availability dict. -/
structure UserProfile where
  user_id : String
  capabilities : List Capability
  domains : List ProblemDomain
  location_region : Option String
  timezone : Option String
  availability : Bool
deriving DecidableEq

/-- `ProvenanceStep` of `core.py`: the fields the engines write and the
transparency layer reads (`inputs`/`outputs` are `Any`-typed logging maps and
are omitted; no modelled claim inspects them). -/
structure ProvenanceStep where
  operation : String
  reasoning : String
  confidence : ℚ
deriving DecidableEq

/-- `ProvenanceGraph` of `core.py`. -/
structure ProvenanceGraph where
  decision_type : String
  steps : List ProvenanceStep
deriving DecidableEq

/-- `ProvenanceGraph.add_step`: append-only. -/
def ProvenanceGraph.add_step (g : ProvenanceGraph) (s : ProvenanceStep) : ProvenanceGraph :=
  { g with steps := g.steps ++ [s] }

/-- `Match` dataclass of `core.py` (matching-relevant fields). -/
structure Match where
  need : Need
  need_user_id : String
  capability : Capability
  capability_user_id : String
  match_score : ℚ
  complementarity_score : ℚ
  feasibility_score : ℚ
  provenance : ProvenanceGraph
  confidence : ℚ
  uncertainty_factors : List String
  evidence : List String
  similar_past_matches : List String
  verification_methods : List String
deriving DecidableEq

/-- `MatchingConfig` of `engine.py` with its default values. -/
structure MatchingConfig where
  min_match_score : ℚ := 4/10
  max_matches_per_need : Nat := 10
  include_provenance : Bool := true
  weight_complementarity : ℚ := 4/10
  weight_proficiency : ℚ := 3/10
  weight_feasibility : ℚ := 3/10
deriving DecidableEq

/-- `MatchingConfig()` with all defaults. -/
def defaultMatchingConfig : MatchingConfig := {}

/-- Python `s.lower()`: lowercase each character. -/
def lower_string (s : String) : String := ⟨s.data.map Char.toLower⟩

/-- Helper for Python `str.split()` with no argument: split on runs of
whitespace, producing no empty tokens.  `acc` holds the current token's
characters in reverse. -/
def split_ws_aux : List Char → List Char → List String
  | [], acc => if acc.isEmpty then [] else [⟨acc.reverse⟩]
  | c :: rest, acc =>
    if c.isWhitespace then
      (if acc.isEmpty then [] else [⟨acc.reverse⟩]) ++ split_ws_aux rest []
    else split_ws_aux rest (c :: acc)

/-- Python `s.lower().split()`. -/
def tokens_of (s : String) : List String := split_ws_aux (lower_string s).data []

/-- Token set of a need built in `_compute_semantic_similarity`:
name tokens + description tokens + tags. -/
def need_token_set (need : Need) : Finset String :=
  (tokens_of need.name ++ tokens_of need.description ++ need.tags).toFinset

/-- Token set of a capability built in `_compute_semantic_similarity`. -/
def cap_token_set (capability : Capability) : Finset String :=
  (tokens_of capability.name ++ tokens_of capability.description ++ capability.tags).toFinset

/-- `CapabilityMatcher._compute_semantic_similarity`: Jaccard index of the
token sets, 0 when either side is empty. -/
def compute_semantic_similarity (need : Need) (capability : Capability) : ℚ :=
  let need_tokens := need_token_set need
  let cap_tokens := cap_token_set capability
  if need_tokens = ∅ ∨ cap_tokens = ∅ then 0
  else if 0 < (need_tokens ∪ cap_tokens).card then
    ((need_tokens ∩ cap_tokens).card : ℚ) / ((need_tokens ∪ cap_tokens).card : ℚ)
  else 0

/-- The `(type.value, name)` capability pairs of a profile, as the set
comprehension in `_compute_complementarity` builds them. -/
def cap_pairs (profile : UserProfile) : Finset (String × String) :=
  (profile.capabilities.map (fun c => (c.type.value, c.name))).toFinset

/-- `CapabilityMatcher._compute_complementarity`: distance of the overlap
fraction from the 0.2 sweet spot, scaled and clamped; 0.5 when there is no
data (empty union). -/
def compute_complementarity (need_user_profile capability_user_profile : UserProfile) : ℚ :=
  let user1_caps := cap_pairs need_user_profile
  let user2_caps := cap_pairs capability_user_profile
  let overlap := (user1_caps ∩ user2_caps).card
  let total := (user1_caps ∪ user2_caps).card
  if total = 0 then 5/10
  else
    let overlap_frac : ℚ := (overlap : ℚ) / (total : ℚ)
    let distance := |overlap_frac - 2/10|
    max 0 (min 1 (1 - distance * 2))

/-- Truthiness test `p1.timezone and p2.timezone and p1.timezone != p2.timezone`
(`None` and the empty string are falsy). -/
def timezone_mismatch (p1 p2 : UserProfile) : Bool :=
  match p1.timezone, p2.timezone with
  | some a, some b => !(a == "") && !(b == "") && !(a == b)
  | _, _ => false

/-- Truthiness of `profile.timezone` alone. -/
def timezone_known (profile : UserProfile) : Bool :=
  match profile.timezone with
  | some a => !(a == "")
  | none => false

/-- `need.constraints` nonempty and `need.constraints.get("budget")` truthy. -/
def budget_penalty_applies (need : Need) : Bool :=
  !need.constraints.isEmpty && ((need.constraints.lookup ("budget")).getD false)

/-- `CapabilityMatcher._compute_feasibility`: sequential multiplicative
penalties, clamped to [0,1] at the end. -/
def compute_feasibility (need_user_profile capability_user_profile : UserProfile)
    (need : Need) : ℚ :=
  let f0 : ℚ := 1
  let f1 := if timezone_mismatch need_user_profile capability_user_profile
            then f0 * (8/10) else f0
  let f2 := if need_user_profile.availability && capability_user_profile.availability
            then f1 * (9/10) else f1
  let f3 := if budget_penalty_applies need then f2 * (95/100) else f2
  let f4 := if (8:ℚ)/10 < need.urgency then f3 * (9/10) else f3
  max 0 (min 1 f4)

/-- `CapabilityMatcher._apply_historical_learning`: average `match_score` of
past matches with the same `(need.type, capability.type)` pair, recentred at
0.5 and scaled by 0.2; 0 with no (similar) history. -/
def apply_historical_learning (match_history : List Match) (need : Need)
    (capability : Capability) : ℚ :=
  if match_history.isEmpty then 0
  else
    let similar_matches := match_history.filter
      (fun m => decide (m.need.type = need.type ∧ m.capability.type = capability.type))
    if similar_matches.isEmpty then 0
    else
      let avg_score := (similar_matches.map (fun m => m.match_score)).sum
        / (similar_matches.length : ℚ)
      (avg_score - 5/10) * (2/10)

/-- `CapabilityMatcher._compute_confidence`: mean of four factors.  Note the
caller computes this before assigning `match.evidence`, so the evidence factor
sees the dataclass default `[]`. -/
def compute_confidence (match_history : List Match) (m : Match) : ℚ :=
  (m.match_score
    + (if m.evidence.isEmpty then 5/10 else 9/10)
    + 8/10
    + (if match_history.isEmpty then 5/10 else 8/10)) / 4

/-- `CapabilityMatcher._gather_evidence` (numeric f-string interpolation
abbreviated; only emptiness of the result is ever branched on). -/
def gather_evidence (need : Need) (capability : Capability) : List String :=
  (if !(need.description == "") && !(capability.description == "")
   then ["Need and capability descriptions are aligned"] else [])
  ++ (let common_tags := need.tags.filter (fun t => decide (t ∈ capability.tags))
      if common_tags.isEmpty then []
      else ["Shared domain tags: " ++ String.intercalate (", ") common_tags])
  ++ (if (7:ℚ)/10 ≤ capability.proficiency then ["High proficiency level"] else [])

/-- `CapabilityMatcher._identify_uncertainties`. -/
def identify_uncertainties (match_history : List Match)
    (need_user_profile capability_user_profile : UserProfile) : List String :=
  (if need_user_profile.capabilities.length < 3
   then ["Limited capability data for need user"] else [])
  ++ (if capability_user_profile.capabilities.length < 3
      then ["Limited capability data for capability user"] else [])
  ++ (if match_history.isEmpty then ["No historical match data for calibration"] else [])
  ++ (if !(timezone_known need_user_profile) then ["Unknown timezone for need user"] else [])
  ++ (if !(timezone_known capability_user_profile)
      then ["Unknown timezone for capability user"] else [])

/-- `CapabilityMatcher._score_match`.  The provenance steps are appended in
source order to a fresh `match_scoring` graph; the combined score is the raw
weighted sum (the similarity weight 0.3 and the history weight 0.1 are
hard-coded in the source, the other three come from the config).  As in the
source, `confidence` is computed before `evidence` is assigned. -/
def score_match (config : MatchingConfig) (match_history : List Match) (need : Need)
    (need_user_profile : UserProfile) (capability : Capability)
    (capability_user_profile : UserProfile) : Match :=
  let semantic_score := compute_semantic_similarity need capability
  let complementarity_score := compute_complementarity need_user_profile capability_user_profile
  let feasibility_score := compute_feasibility need_user_profile capability_user_profile need
  let historical_boost := apply_historical_learning match_history need capability
  let prov : ProvenanceGraph :=
    { decision_type := "match_scoring"
      steps :=
        [ { operation := "semantic_similarity"
            reasoning := "Computed semantic similarity between need and capability"
            confidence := 8/10 }
        , { operation := "complementarity_analysis"
            reasoning := "Analyzed how well the users capabilities complement each other"
            confidence := 7/10 }
        , { operation := "feasibility_assessment"
            reasoning := "Assessed practical feasibility (location, time, resources)"
            confidence := 75/100 }
        , { operation := "historical_learning"
            reasoning := "Applied learning from past matches"
            confidence := if match_history.isEmpty then 3/10 else 6/10 } ] }
  let match_score := semantic_score * (3/10)
      + complementarity_score * config.weight_complementarity
      + capability.proficiency * config.weight_proficiency
      + feasibility_score * config.weight_feasibility
      + historical_boost * (1/10)
  let m0 : Match :=
    { need := need
      need_user_id := need_user_profile.user_id
      capability := capability
      capability_user_id := capability_user_profile.user_id
      match_score := match_score
      complementarity_score := complementarity_score
      feasibility_score := feasibility_score
      provenance := prov
      confidence := 0
      uncertainty_factors := []
      evidence := []
      similar_past_matches := []
      verification_methods := [] }
  { m0 with
      confidence := compute_confidence match_history m0
      evidence := gather_evidence need capability
      verification_methods :=
        [ "Check " ++ capability_user_profile.user_id ++ " past work in this domain"
        , "Verify the capability description aligns with the need"
        , "Consider if practical constraints are manageable" ]
      uncertainty_factors :=
        identify_uncertainties match_history need_user_profile capability_user_profile }

/-- The capability index of `CapabilityMatcher`: a `defaultdict(list)` from
string keys to posting lists, modelled as a total function (the engine only
reads it through `.get(key, [])`, which never inserts). -/
def CapabilityIndex : Type := String → List (UserProfile × Capability)

/-- The fresh, empty index built in `CapabilityMatcher.__init__`. -/
def empty_index : CapabilityIndex := fun _ => []

/-- `self.capability_index[key].append((profile, capability))`. -/
def index_add (idx : CapabilityIndex) (key : String) (entry : UserProfile × Capability) :
    CapabilityIndex :=
  fun k => if k = key then idx key ++ [entry] else idx k

/-- The index keys one capability is appended under in `index_user_profile`,
in source order: its type key, one key per tag, and one key per name token
longer than 3 characters. -/
def keys_for_capability (capability : Capability) : List String :=
  ("type:" ++ capability.type.value)
    :: (capability.tags.map (fun tag => "tag:" ++ tag)
        ++ ((tokens_of capability.name).filter (fun token => decide (3 < token.length))).map
            (fun token => "token:" ++ token))

/-- `CapabilityMatcher.index_user_profile`: append every capability of the
profile under all of its keys. -/
def index_user_profile (idx : CapabilityIndex) (profile : UserProfile) : CapabilityIndex :=
  profile.capabilities.foldl
    (fun ix c => (keys_for_capability c).foldl (fun ix2 k => index_add ix2 k (profile, c)) ix)
    idx

/-- The first-occurrence deduplication loop of `_retrieve_candidates`, keyed
by `(user_id, capability_id)`; `seen` is the set built so far. -/
def dedup_candidates :
    List (UserProfile × Capability) → List (String × String) → List (UserProfile × Capability)
  | [], _ => []
  | pc :: rest, seen =>
    if (pc.1.user_id, pc.2.capability_id) ∈ seen then dedup_candidates rest seen
    else pc :: dedup_candidates rest ((pc.1.user_id, pc.2.capability_id) :: seen)

/-- `CapabilityMatcher._retrieve_candidates`: gather postings by type, by each
tag and by each long name token, deduplicate, and drop self-matches.  (The
provenance step it appends goes to the call-local graph discarded by
`find_matches`, so it is not part of the result.) -/
def retrieve_candidates (idx : CapabilityIndex) (need : Need)
    (need_user_profile : UserProfile) : List (UserProfile × Capability) :=
  let type_matches := idx ("type:" ++ need.type.value)
  let tag_matches := need.tags.flatMap (fun tag => idx ("tag:" ++ tag))
  let token_matches :=
    ((tokens_of need.name).filter (fun token => decide (3 < token.length))).flatMap
      (fun token => idx ("token:" ++ token))
  let unique_candidates := dedup_candidates (type_matches ++ tag_matches ++ token_matches) []
  unique_candidates.filter (fun pc => decide (pc.1.user_id ≠ need_user_profile.user_id))

/-- Stable insertion of a match into a list sorted by descending score: skip
over strictly larger scores, then sit in front of the first entry whose score
is not larger (in particular in front of equal scores inserted from further
right in the original list). -/
def insert_desc (m : Match) : List Match → List Match
  | [] => [m]
  | h :: t => if m.match_score < h.match_score then h :: insert_desc m t else m :: h :: t

/-- Stable descending sort by `match_score`.  Python's `list.sort(key=...,
reverse=True)` is the unique stable descending sort, and `insert_desc` keeps
earlier elements in front of later ties, so this computes the same list. -/
def sort_by_score_desc : List Match → List Match
  | [] => []
  | m :: rest => insert_desc m (sort_by_score_desc rest)

/-- The mutable state of a `CapabilityMatcher` object. -/
structure MatcherState where
  config : MatchingConfig
  capability_index : CapabilityIndex
  match_history : List Match
  success_patterns : List (String × ℚ)

/-- `max_results = max_results or self.config.max_matches_per_need`: Python
treats both `None` and `0` as falsy here. -/
def effective_max (max_results : Option Nat) (config : MatchingConfig) : Nat :=
  match max_results with
  | none => config.max_matches_per_need
  | some n => if n = 0 then config.max_matches_per_need else n

/-- The scored candidates kept by the threshold in `find_matches`, in
retrieval order: score every retrieved candidate, keep those with
`match_score >= min_match_score` (the filter runs inside the scoring loop,
before the sort). -/
def scored_kept (s : MatcherState) (need : Need) (need_user_profile : UserProfile) :
    List Match :=
  ((retrieve_candidates s.capability_index need need_user_profile).map
      (fun pc => score_match s.config s.match_history need need_user_profile pc.2 pc.1)).filter
    (fun m => decide (s.config.min_match_score ≤ m.match_score))

/-- `CapabilityMatcher.find_matches`.  The method only reads the matcher
fields: the index is accessed through `dict.get` (no `defaultdict` insertion),
`_score_match` and `_apply_historical_learning` read `config` and
`match_history`, and the per-call provenance graph is call-local, so the
state component of the result is the input state. -/
def find_matches_st (s : MatcherState) (need : Need) (need_user_profile : UserProfile)
    (max_results : Option Nat) : List Match × MatcherState :=
  ((sort_by_score_desc (scored_kept s need need_user_profile)).take
      (effective_max max_results s.config),
    s)

/-- `CapabilityMatcher.learn_from_outcome`: append the match to the history
and fold the outcome into `success_patterns` by exponential moving average
(`alpha = 0.3`), initializing absent keys with the first observed value. -/
def learn_from_outcome (s : MatcherState) (m : Match) (success : Bool) : MatcherState :=
  let pattern_key := m.need.type.value ++ ":" ++ m.capability.type.value
  let new_value : ℚ := if success then m.match_score else 0
  let patterns :=
    match s.success_patterns.lookup pattern_key with
    | none => s.success_patterns ++ [(pattern_key, new_value)]
    | some current =>
      s.success_patterns.map
        (fun kv => if kv.1 = pattern_key then (kv.1, (3/10) * new_value + (7/10) * current) else kv)
  { s with match_history := s.match_history ++ [m], success_patterns := patterns }

/-- `TransparencyEngine._estimate_confidence_interval`:
`match_score ± match_score·(1−confidence)·0.3`, each endpoint clamped. -/
def estimate_confidence_interval (m : Match) : ℚ × ℚ :=
  let uncertainty := 1 - m.confidence
  let margin := m.match_score * uncertainty * (3/10)
  (max 0 (m.match_score - margin), min 1 (m.match_score + margin))

/-- `SemanticMatchingConfig` of `semantic_engine.py` with its defaults. -/
structure SemanticMatchingConfig where
  min_match_score : ℚ := 4/10
  max_matches_per_need : Nat := 10
  similarity_threshold : ℚ := 3/10
  weight_semantic : ℚ := 4/10
  weight_complementarity : ℚ := 3/10
  weight_proficiency : ℚ := 2/10
  weight_feasibility : ℚ := 1/10
deriving DecidableEq

/-- Embedding vectors produced by the external sentence-transformer model
(numpy arrays); the matching logic never reads their entries except through
`cos_sim` and the truthiness test below. -/
abbrev EmbeddingVec : Type := List ℚ

/-- The `ValueError` message numpy raises when a multi-element array is used
in boolean context. -/
def value_error_multi : String :=
  "ValueError: The truth value of an array with more than one element is ambiguous"

/-- The `ValueError` message numpy raises when an empty array is used in
boolean context. -/
def value_error_empty : String :=
  "ValueError: The truth value of an empty array is ambiguous"

/-- numpy truthiness of an ndarray (`bool(arr)`): defined only for
one-element arrays, where it is the truthiness of the single entry;
zero-element and multi-element arrays raise `ValueError`. -/
def ndarray_truthy : EmbeddingVec → Except String Bool
  | [x] => .ok (decide (x ≠ 0))
  | [] => .error value_error_empty
  | _ => .error value_error_multi

/-- `SemanticMatcher._keyword_similarity`: the same Jaccard computation as
`compute_semantic_similarity`, duplicated in the source. -/
def keyword_similarity (need : Need) (capability : Capability) : ℚ :=
  let need_words := need_token_set need
  let cap_words := cap_token_set capability
  if need_words = ∅ ∨ cap_words = ∅ then 0
  else if 0 < (need_words ∪ cap_words).card then
    ((need_words ∩ cap_words).card : ℚ) / ((need_words ∪ cap_words).card : ℚ)
  else 0

/-- `SemanticMatcher._compute_complementarity` (same formula as the lexical
engine, duplicated in the source). -/
def semantic_compute_complementarity (profile1 profile2 : UserProfile) : ℚ :=
  let caps1 := cap_pairs profile1
  let caps2 := cap_pairs profile2
  let overlap := (caps1 ∩ caps2).card
  let total := (caps1 ∪ caps2).card
  if total = 0 then 5/10
  else
    let overlap_frac : ℚ := (overlap : ℚ) / (total : ℚ)
    let distance := |overlap_frac - 2/10|
    max 0 (min 1 (1 - distance * 2))

/-- `SemanticMatcher._compute_feasibility`: 0.9 timezone penalty and 0.9
urgency penalty, no final clamp in this engine. -/
def semantic_compute_feasibility (profile1 profile2 : UserProfile) (need : Need) : ℚ :=
  let f0 : ℚ := 1
  let f1 := if timezone_mismatch profile1 profile2 then f0 * (9/10) else f0
  if (8:ℚ)/10 < need.urgency then f1 * (9/10) else f1

/-- `SemanticMatcher._compute_confidence`.  As in the lexical engine, the
caller computes this before assigning `match.evidence`. -/
def semantic_compute_confidence (match_history : List Match) (m : Match)
    (has_embeddings : Bool) : ℚ :=
  ((if has_embeddings then 9/10 else 6/10)
    + m.match_score
    + (if m.evidence.isEmpty then 5/10 else 8/10)
    + (if 10 < match_history.length then 8/10 else 5/10)) / 4

/-- `SemanticMatcher._score_match`.  The external embedding model and numpy
cosine are modelled as the parameters `embed_capability` and `cos_sim`;
`need_embedding` is the optional embedding of the need computed by the
caller.  The similarity provenance step records confidence 0.9 exactly when
a need embedding exists (`need_embedding is not None`, an identity test),
0.6 in the keyword fallback.  The uncertainty bookkeeping at the end,
however, runs `if not need_embedding:`, which for a present embedding is
numpy truthiness of the array: the multi-element vectors an embedding model
actually produces make it raise `ValueError`, so the method returns a
`Match` only in the keyword fallback or for a degenerate one-element
embedding, and propagates the error otherwise — modelled as
`Except String Match`. -/
def semantic_score_match (config : SemanticMatchingConfig) (match_history : List Match)
    (cos_sim : EmbeddingVec → EmbeddingVec → ℚ)
    (embed_capability : Capability → Option EmbeddingVec)
    (need_embedding : Option EmbeddingVec) (need : Need)
    (need_user_profile : UserProfile) (capability : Capability)
    (capability_user_profile : UserProfile) : Except String Match :=
  let semantic_sim :=
    match need_embedding with
    | some ne =>
      match embed_capability capability with
      | some ce => cos_sim ne ce
      | none => 5/10
    | none => keyword_similarity need capability
  let complementarity := semantic_compute_complementarity need_user_profile capability_user_profile
  let feasibility := semantic_compute_feasibility need_user_profile capability_user_profile need
  let prov : ProvenanceGraph :=
    { decision_type := "semantic_match_scoring"
      steps :=
        [ { operation := "semantic_similarity"
            reasoning := "Computed deep semantic similarity using embeddings"
            confidence := if need_embedding.isSome then 9/10 else 6/10 } ] }
  let match_score := semantic_sim * config.weight_semantic
      + complementarity * config.weight_complementarity
      + capability.proficiency * config.weight_proficiency
      + feasibility * config.weight_feasibility
  let m0 : Match :=
    { need := need
      need_user_id := need_user_profile.user_id
      capability := capability
      capability_user_id := capability_user_profile.user_id
      match_score := match_score
      complementarity_score := complementarity
      feasibility_score := feasibility
      provenance := prov
      confidence := 0
      uncertainty_factors := []
      evidence := []
      similar_past_matches := []
      verification_methods := [] }
  let m1 : Match :=
    { m0 with
        confidence := semantic_compute_confidence match_history m0 need_embedding.isSome
        evidence :=
          [ "Semantic similarity", "Complementarity", "Proficiency", "Feasibility" ]
        verification_methods :=
          [ "Review the capability description for alignment"
          , "Check if semantic similarity score makes sense"
          , "Verify proficiency level is adequate" ] }
  let fallback_flag : Except String Bool :=
    match need_embedding with
    | none => .ok true
    | some v =>
      match ndarray_truthy v with
      | .ok t => .ok (!t)
      | .error e => .error e
  match fallback_flag with
  | .error e => .error e
  | .ok flag =>
    .ok { m1 with
      uncertainty_factors :=
        (if flag then ["No embeddings available (keyword fallback)"] else [])
          ++ (if match_history.length < 10
              then ["Limited historical data for calibration"] else []) }

/-- The complementarity sub-score in the words of the spec (§4.3):
`clamp(1 − 2·|overlap_ratio − 0.20|, 0, 1)` over the `(type, name)` pair
sets, with a neutral 0.5 when there are no capability pairs at all. -/
def complementarity_spec (profile1 profile2 : UserProfile) : ℚ :=
  let caps1 := cap_pairs profile1
  let caps2 := cap_pairs profile2
  if caps1 ∪ caps2 = ∅ then 5/10
  else
    max 0 (min 1
      (1 - 2 * |((caps1 ∩ caps2).card : ℚ) / ((caps1 ∪ caps2).card : ℚ) - 2/10|))

/-! Concrete test fixtures used by the witnesses and counterexamples. -/

/-- A skill capability named `aa`, owned by user a. -/
def cap_aa_a : Capability :=
  { capability_id := "cap-aa-a", type := .skill, name := "aa", description := "",
    proficiency := 0, confidence := 1, evidence := [],
    privacy_level := .networkLevel, tags := [] }

/-- A skill capability named `bb`, owned by user a. -/
def cap_bb_a : Capability := { cap_aa_a with capability_id := "cap-bb-a", name := "bb" }

/-- A skill capability named `cc`, owned by user a. -/
def cap_cc_a : Capability := { cap_aa_a with capability_id := "cap-cc-a", name := "cc" }

/-- A skill capability named `aa`, owned by user b (shared `(type, name)` pair
with `cap_aa_a`). -/
def cap_aa_b : Capability := { cap_aa_a with capability_id := "cap-aa-b" }

/-- A skill capability named `dd`, owned by user b. -/
def cap_dd_b : Capability := { cap_aa_a with capability_id := "cap-dd-b", name := "dd" }

/-- The proficiency-1 skill capability `alphabeta` owned by user b. -/
def cap_alpha : Capability :=
  { cap_aa_a with capability_id := "cap-alpha", name := "alphabeta", proficiency := 1 }

/-- Requester profile: three skill capabilities, no timezone, empty
availability dict. -/
def prof_a : UserProfile :=
  { user_id := "user-a", capabilities := [cap_aa_a, cap_bb_a, cap_cc_a],
    domains := [], location_region := none, timezone := none, availability := false }

/-- Candidate-side profile: shares exactly one `(type, name)` pair with
`prof_a`, so the pair overlap fraction is 1/5 (the 0.2 sweet spot). -/
def prof_b : UserProfile :=
  { user_id := "user-b", capabilities := [cap_aa_b, cap_dd_b, cap_alpha],
    domains := [], location_region := none, timezone := none, availability := false }

/-- A profile with zero capabilities. -/
def prof_empty : UserProfile :=
  { user_id := "user-e", capabilities := [], domains := [], location_region := none,
    timezone := none, availability := false }

/-- A profile holding one capability whose only index key is its type key
(name too short for a token key, no tags). -/
def prof_single : UserProfile :=
  { user_id := "user-s",
    capabilities :=
      [{ cap_aa_a with capability_id := "cap-short", name := "ab" }],
    domains := [], location_region := none, timezone := none, availability := false }

/-- A skill-typed need whose single name token coincides with `cap_alpha`. -/
def need_alpha : Need :=
  { need_id := "need-1", type := .skill, name := "alphabeta", description := "",
    urgency := 0, importance := 0, domain := .other, context := "",
    constraints := [], tags := [] }

/-- Matcher state with only `prof_b` indexed, empty history, default config. -/
def state_c : MatcherState :=
  { config := defaultMatchingConfig,
    capability_index := index_user_profile empty_index prof_b,
    match_history := [], success_patterns := [] }

/-- A fresh matcher state: empty index, empty history. -/
def state_empty : MatcherState :=
  { config := defaultMatchingConfig, capability_index := empty_index,
    match_history := [], success_patterns := [] }

/-- A recorded `(skill : skill)` match with `match_score = 0.4`, fed to
`learn_from_outcome` as a successful outcome. -/
def m_rec : Match :=
  { need := need_alpha, need_user_id := "user-x", capability := cap_alpha,
    capability_user_id := "user-y", match_score := 2/5, complementarity_score := 0,
    feasibility_score := 0, provenance := { decision_type := "match_scoring", steps := [] },
    confidence := 0, uncertainty_factors := [], evidence := [], similar_past_matches := [],
    verification_methods := [] }

/-- The matcher state after recording five successful outcomes for `m_rec`. -/
def state_five : MatcherState :=
  learn_from_outcome
    (learn_from_outcome
      (learn_from_outcome
        (learn_from_outcome
          (learn_from_outcome state_empty m_rec true) m_rec true) m_rec true) m_rec true)
    m_rec true

/-- A match whose score and confidence are inside [0,1], for instantiating the
confidence-interval bracketing theorem. -/
def m_half : Match :=
  { m_rec with match_score := 1/2, confidence := 1/2 }

/-- The match that `score_match` produces for `need_alpha` against
`cap_alpha` with empty history: its combined score is 1.3. -/
def m_big : Match := score_match defaultMatchingConfig [] need_alpha prof_a cap_alpha prof_b

/-- The match scored for the candidate `cap_aa_b` in the same call. -/
def m_aab : Match := score_match defaultMatchingConfig [] need_alpha prof_a cap_aa_b prof_b

/-- The match scored for the candidate `cap_dd_b` in the same call. -/
def m_ddb : Match := score_match defaultMatchingConfig [] need_alpha prof_a cap_dd_b prof_b

/-- The postings a single profile contributes under one index key, in the
order `index_user_profile` appends them. -/
def postings_for (profile : UserProfile) (k : String) : List (UserProfile × Capability) :=
  profile.capabilities.flatMap
    (fun c =>
      ((keys_for_capability c).filter (fun k2 => decide (k2 = k))).map (fun _ => (profile, c)))

/-- The `similar_matches` list computed inside `_apply_historical_learning`:
past matches with the same `(need.type, capability.type)` pair. -/
def similar_matches_of (match_history : List Match) (need : Need)
    (capability : Capability) : List Match :=
  match_history.filter
    (fun m => decide (m.need.type = need.type ∧ m.capability.type = capability.type))

/-- The `avg_score` computed inside `_apply_historical_learning`. -/
def avg_score_of (match_history : List Match) (need : Need) (capability : Capability) : ℚ :=
  ((similar_matches_of match_history need capability).map (fun m => m.match_score)).sum
    / ((similar_matches_of match_history need capability).length : ℚ)

/-! Helper lemmas. -/

theorem learn_from_outcome_match_history (s : MatcherState) (m : Match) (success : Bool) :
    (learn_from_outcome s m success).match_history = s.match_history ++ [m] := rfl

theorem score_match_need_user_id (config : MatchingConfig) (hist : List Match) (need : Need)
    (p1 : UserProfile) (cap : Capability) (p2 : UserProfile) :
    (score_match config hist need p1 cap p2).need_user_id = p1.user_id := rfl

theorem score_match_capability_user_id (config : MatchingConfig) (hist : List Match)
    (need : Need) (p1 : UserProfile) (cap : Capability) (p2 : UserProfile) :
    (score_match config hist need p1 cap p2).capability_user_id = p2.user_id := rfl

theorem score_match_match_score (config : MatchingConfig) (hist : List Match) (need : Need)
    (p1 : UserProfile) (cap : Capability) (p2 : UserProfile) :
    (score_match config hist need p1 cap p2).match_score
      = compute_semantic_similarity need cap * (3/10)
        + compute_complementarity p1 p2 * config.weight_complementarity
        + cap.proficiency * config.weight_proficiency
        + compute_feasibility p1 p2 need * config.weight_feasibility
        + apply_historical_learning hist need cap * (1/10) := rfl

theorem mem_insert_desc (a m : Match) (l : List Match) :
    a ∈ insert_desc m l ↔ a = m ∨ a ∈ l := by
  induction l with
  | nil => simp [insert_desc]
  | cons h t ih =>
    rw [insert_desc]
    by_cases hc : m.match_score < h.match_score
    · rw [if_pos hc]
      simp only [List.mem_cons, ih]
      tauto
    · rw [if_neg hc]
      simp only [List.mem_cons]

theorem mem_sort_by_score_desc (a : Match) (l : List Match) :
    a ∈ sort_by_score_desc l ↔ a ∈ l := by
  induction l with
  | nil => simp [sort_by_score_desc]
  | cons h t ih =>
    rw [sort_by_score_desc, mem_insert_desc]
    simp [ih]

theorem length_insert_desc (m : Match) (l : List Match) :
    (insert_desc m l).length = l.length + 1 := by
  induction l with
  | nil => rfl
  | cons h t ih =>
    rw [insert_desc]
    by_cases hc : m.match_score < h.match_score
    · rw [if_pos hc]
      simp [ih]
    · rw [if_neg hc]
      simp

theorem length_sort_by_score_desc (l : List Match) :
    (sort_by_score_desc l).length = l.length := by
  induction l with
  | nil => rfl
  | cons h t ih =>
    rw [sort_by_score_desc, length_insert_desc, ih]
    rfl

theorem sorted_insert_desc (m : Match) (l : List Match)
    (hl : List.Sorted (fun a b => b.match_score ≤ a.match_score) l) :
    List.Sorted (fun a b => b.match_score ≤ a.match_score) (insert_desc m l) := by
  induction l with
  | nil => simp [insert_desc]
  | cons h t ih =>
    rw [insert_desc]
    rcases List.sorted_cons.1 hl with ⟨hh, ht⟩
    by_cases hc : m.match_score < h.match_score
    · rw [if_pos hc]
      refine List.sorted_cons.2 ⟨?_, ih ht⟩
      intro b hb
      rcases (mem_insert_desc b m t).1 hb with rfl | hbt
      · exact le_of_lt hc
      · exact hh b hbt
    · rw [if_neg hc]
      refine List.sorted_cons.2 ⟨?_, hl⟩
      intro b hb
      rcases List.mem_cons.1 hb with rfl | hbt
      · exact not_lt.1 hc
      · exact le_trans (hh b hbt) (not_lt.1 hc)

theorem sorted_sort_by_score_desc (l : List Match) :
    List.Sorted (fun a b => b.match_score ≤ a.match_score) (sort_by_score_desc l) := by
  induction l with
  | nil => simp [sort_by_score_desc]
  | cons h t ih => exact sorted_insert_desc h (sort_by_score_desc t) ih

theorem filter_insert_desc (m : Match) (l : List Match) (q : ℚ) :
    (insert_desc m l).filter (fun x => decide (x.match_score = q))
      = if m.match_score = q
        then m :: l.filter (fun x => decide (x.match_score = q))
        else l.filter (fun x => decide (x.match_score = q)) := by
  induction l with
  | nil =>
    by_cases hq : m.match_score = q <;> simp [insert_desc, hq]
  | cons h t ih =>
    rw [insert_desc]
    by_cases hc : m.match_score < h.match_score
    · rw [if_pos hc]
      by_cases hq : m.match_score = q
      · have hh : ¬ h.match_score = q := fun he => absurd (hq ▸ he ▸ hc) (lt_irrefl _)
        rw [if_pos hq]
        simp [List.filter_cons, ih, hq, hh]
      · rw [if_neg hq]
        simp [List.filter_cons, ih, hq]
    · rw [if_neg hc]
      by_cases hq : m.match_score = q <;> simp [List.filter_cons, hq]

theorem filter_sort_by_score_desc (l : List Match) (q : ℚ) :
    (sort_by_score_desc l).filter (fun x => decide (x.match_score = q))
      = l.filter (fun x => decide (x.match_score = q)) := by
  induction l with
  | nil => rfl
  | cons h t ih =>
    rw [sort_by_score_desc, filter_insert_desc]
    by_cases hq : h.match_score = q
    · rw [if_pos hq, ih, List.filter_cons, if_pos (by simpa using hq)]
    · rw [if_neg hq, ih, List.filter_cons, if_neg (by simpa using hq)]

theorem index_add_foldl_apply (e : UserProfile × Capability) (ks : List String) :
    ∀ (ix : CapabilityIndex) (k : String),
      (ks.foldl (fun ix2 k2 => index_add ix2 k2 e) ix) k
        = ix k ++ (ks.filter (fun k2 => decide (k2 = k))).map (fun _ => e) := by
  induction ks with
  | nil =>
    intro ix k
    simp
  | cons k0 rest ih =>
    intro ix k
    rw [List.foldl_cons, ih]
    by_cases h : k0 = k
    · subst h
      simp [index_add, List.filter_cons]
    · have h2 : ¬ k = k0 := fun he => h he.symm
      simp [index_add, List.filter_cons, h, h2]

theorem index_caps_foldl_apply (p : UserProfile) (cs : List Capability) :
    ∀ (ix : CapabilityIndex) (k : String),
      (cs.foldl
          (fun ix c =>
            (keys_for_capability c).foldl (fun ix2 k2 => index_add ix2 k2 (p, c)) ix)
          ix) k
        = ix k
          ++ cs.flatMap
              (fun c =>
                ((keys_for_capability c).filter (fun k2 => decide (k2 = k))).map
                  (fun _ => (p, c))) := by
  induction cs with
  | nil =>
    intro ix k
    simp
  | cons c rest ih =>
    intro ix k
    rw [List.foldl_cons, ih, index_add_foldl_apply]
    simp

theorem index_user_profile_apply (idx : CapabilityIndex) (p : UserProfile) (k : String) :
    index_user_profile idx p k = idx k ++ postings_for p k := by
  rw [index_user_profile, index_caps_foldl_apply, postings_for]

theorem score_match_confidence (config : MatchingConfig) (hist : List Match) (need : Need)
    (p1 : UserProfile) (cap : Capability) (p2 : UserProfile) :
    (score_match config hist need p1 cap p2).confidence
      = ((score_match config hist need p1 cap p2).match_score
          + 5/10 + 8/10 + (if hist.isEmpty then 5/10 else 8/10)) / 4 := rfl

theorem score_match_uncertainty_factors (config : MatchingConfig) (hist : List Match)
    (need : Need) (p1 : UserProfile) (cap : Capability) (p2 : UserProfile) :
    (score_match config hist need p1 cap p2).uncertainty_factors
      = identify_uncertainties hist p1 p2 := rfl

theorem score_match_similarity_step (config : MatchingConfig) (hist : List Match)
    (need : Need) (p1 : UserProfile) (cap : Capability) (p2 : UserProfile) :
    ((score_match config hist need p1 cap p2).provenance.steps.head?.map
        (fun st => st.confidence)) = some (8/10) := rfl

theorem eval_hist_nil (need : Need) (cap : Capability) :
    apply_historical_learning [] need cap = 0 := rfl

theorem eval_sim_alpha : compute_semantic_similarity need_alpha cap_alpha = 1 := by
  have h0 : ¬(need_token_set need_alpha = ∅ ∨ cap_token_set cap_alpha = ∅) := by decide
  have h1 : (need_token_set need_alpha ∩ cap_token_set cap_alpha).card = 1 := by decide
  have h2 : (need_token_set need_alpha ∪ cap_token_set cap_alpha).card = 1 := by decide
  simp only [compute_semantic_similarity, h1, h2]
  rw [if_neg h0]
  norm_num

theorem eval_sim_aab : compute_semantic_similarity need_alpha cap_aa_b = 0 := by
  have h0 : ¬(need_token_set need_alpha = ∅ ∨ cap_token_set cap_aa_b = ∅) := by decide
  have h1 : (need_token_set need_alpha ∩ cap_token_set cap_aa_b).card = 0 := by decide
  have h2 : (need_token_set need_alpha ∪ cap_token_set cap_aa_b).card = 2 := by decide
  simp only [compute_semantic_similarity, h1, h2]
  rw [if_neg h0]
  norm_num

theorem eval_sim_ddb : compute_semantic_similarity need_alpha cap_dd_b = 0 := by
  have h0 : ¬(need_token_set need_alpha = ∅ ∨ cap_token_set cap_dd_b = ∅) := by decide
  have h1 : (need_token_set need_alpha ∩ cap_token_set cap_dd_b).card = 0 := by decide
  have h2 : (need_token_set need_alpha ∪ cap_token_set cap_dd_b).card = 2 := by decide
  simp only [compute_semantic_similarity, h1, h2]
  rw [if_neg h0]
  norm_num

theorem eval_comp_ab : compute_complementarity prof_a prof_b = 1 := by
  have h1 : (cap_pairs prof_a ∩ cap_pairs prof_b).card = 1 := by decide
  have h2 : (cap_pairs prof_a ∪ cap_pairs prof_b).card = 5 := by decide
  simp only [compute_complementarity, h1, h2]
  norm_num

theorem eval_feas_ab : compute_feasibility prof_a prof_b need_alpha = 1 := by
  have ht : timezone_mismatch prof_a prof_b = false := by decide
  have hb : budget_penalty_applies need_alpha = false := by decide
  have hav : (prof_a.availability && prof_b.availability) = false := by decide
  have hu : need_alpha.urgency = 0 := rfl
  simp only [compute_feasibility, ht, hb, hav, hu]
  norm_num

theorem eval_score_big : m_big.match_score = 13/10 := by
  rw [m_big, score_match_match_score, eval_sim_alpha, eval_comp_ab, eval_feas_ab, eval_hist_nil]
  norm_num [cap_alpha, cap_aa_a, defaultMatchingConfig]

theorem eval_score_aab : m_aab.match_score = 7/10 := by
  rw [m_aab, score_match_match_score, eval_sim_aab, eval_comp_ab, eval_feas_ab, eval_hist_nil]
  norm_num [cap_aa_b, cap_aa_a, defaultMatchingConfig]

theorem eval_score_ddb : m_ddb.match_score = 7/10 := by
  rw [m_ddb, score_match_match_score, eval_sim_ddb, eval_comp_ab, eval_feas_ab, eval_hist_nil]
  norm_num [cap_dd_b, cap_aa_a, defaultMatchingConfig]

theorem eval_retrieve :
    retrieve_candidates state_c.capability_index need_alpha prof_a
      = [(prof_b, cap_aa_b), (prof_b, cap_dd_b), (prof_b, cap_alpha)] := by decide

theorem eval_scored_kept : scored_kept state_c need_alpha prof_a = [m_aab, m_ddb, m_big] := by
  have hc : state_c.config = defaultMatchingConfig := rfl
  have hh : state_c.match_history = [] := rfl
  rw [scored_kept, eval_retrieve, hc, hh]
  show List.filter _ [m_aab, m_ddb, m_big] = [m_aab, m_ddb, m_big]
  rw [List.filter_cons, List.filter_cons, List.filter_cons]
  rw [if_pos (by rw [eval_score_aab]; norm_num [defaultMatchingConfig])]
  rw [if_pos (by rw [eval_score_ddb]; norm_num [defaultMatchingConfig])]
  rw [if_pos (by rw [eval_score_big]; norm_num [defaultMatchingConfig])]
  rfl

theorem eval_find :
    (find_matches_st state_c need_alpha prof_a none).1 = [m_big, m_aab, m_ddb] := by
  have hs : sort_by_score_desc [m_aab, m_ddb, m_big] = [m_big, m_aab, m_ddb] := by
    rw [sort_by_score_desc, sort_by_score_desc, sort_by_score_desc, sort_by_score_desc]
    rw [insert_desc]
    rw [insert_desc, if_pos (by rw [eval_score_ddb, eval_score_big]; norm_num)]
    rw [insert_desc]
    rw [insert_desc, if_pos (by rw [eval_score_aab, eval_score_big]; norm_num)]
    rw [insert_desc, if_neg (by rw [eval_score_aab, eval_score_ddb]; norm_num)]
  show (sort_by_score_desc (scored_kept state_c need_alpha prof_a)).take _ = _
  rw [eval_scored_kept, hs]
  rfl

/-! Claim theorems. -/

/-- C10: `find_matches` is read-only with respect to the matcher's shared
mutable state: for every need, requester profile and matcher state, the
`config`, `capability_index`, `match_history` and `success_patterns` fields
are unchanged by the call. -/
theorem find_matches_frame (s : MatcherState) (need : Need) (p : UserProfile)
    (r : Option Nat) :
    (find_matches_st s need p r).2.config = s.config
      ∧ (find_matches_st s need p r).2.capability_index = s.capability_index
      ∧ (find_matches_st s need p r).2.match_history = s.match_history
      ∧ (find_matches_st s need p r).2.success_patterns = s.success_patterns :=
  ⟨rfl, rfl, rfl, rfl⟩

/-- C2: no match returned by `find_matches` has `need_user_id` equal to
`capability_user_id`: self-matches are filtered out of the candidate list
during retrieval, and scoring copies the two user ids from the requester
profile and the candidate profile. -/
theorem find_matches_no_self_match (s : MatcherState) (need : Need)
    (need_user_profile : UserProfile) (max_results : Option Nat) :
    ∀ m ∈ (find_matches_st s need need_user_profile max_results).1,
      m.need_user_id ≠ m.capability_user_id := by
  intro m hm
  simp only [find_matches_st] at hm
  have hm2 : m ∈ scored_kept s need need_user_profile :=
    (mem_sort_by_score_desc m _).1 (List.take_subset _ _ hm)
  unfold scored_kept at hm2
  have hm3 := List.mem_of_mem_filter hm2
  rcases List.mem_map.1 hm3 with ⟨pc, hpc, rfl⟩
  rw [score_match_need_user_id, score_match_capability_user_id]
  simp only [retrieve_candidates] at hpc
  have h5 := List.of_mem_filter hpc
  exact (of_decide_eq_true h5).symm

/-- C2 witness: in the concrete indexed state `state_c`, the top returned
match pairs user a's need with user b's capability. -/
theorem find_matches_no_self_match_witness :
    m_big.need_user_id ≠ m_big.capability_user_id :=
  find_matches_no_self_match state_c need_alpha prof_a none m_big
    (by rw [eval_find]; simp)

/-- C3: every match returned by `find_matches` has
`match_score ≥ min_match_score`, and the threshold is applied to each scored
candidate before sorting and truncation: the returned length is the minimum
of the rank-slot budget and the number of above-threshold candidates, so
below-threshold candidates never occupy a rank slot. -/
theorem find_matches_threshold_filter (s : MatcherState) (need : Need)
    (need_user_profile : UserProfile) (max_results : Option Nat) :
    (∀ m ∈ (find_matches_st s need need_user_profile max_results).1,
        s.config.min_match_score ≤ m.match_score)
      ∧ ((find_matches_st s need need_user_profile max_results).1).length
          = min (effective_max max_results s.config)
              (scored_kept s need need_user_profile).length := by
  constructor
  · intro m hm
    simp only [find_matches_st] at hm
    have hm2 : m ∈ scored_kept s need need_user_profile :=
      (mem_sort_by_score_desc m _).1 (List.take_subset _ _ hm)
    unfold scored_kept at hm2
    have h6 := List.of_mem_filter hm2
    exact of_decide_eq_true h6
  · simp only [find_matches_st]
    rw [List.length_take, length_sort_by_score_desc]

/-- C3 witness: in the concrete indexed state `state_c`, the returned match
`m_big` meets the default 0.4 threshold. -/
theorem find_matches_threshold_filter_witness :
    state_c.config.min_match_score ≤ m_big.match_score :=
  (find_matches_threshold_filter state_c need_alpha prof_a none).1 m_big
    (by rw [eval_find]; simp)

/-- C4: the list returned by `find_matches` is sorted in non-increasing order
of `match_score`; the sort is stable, so matches with equal score keep their
retrieval order (for every score value, filtering the sorted list to that
score gives exactly the retrieval-ordered sublist); the result is the
truncated stable sort of the kept candidates; and the function is
deterministic: the same state and inputs give the same ranked list. -/
theorem find_matches_sorted_stable_deterministic (s : MatcherState) (need : Need)
    (need_user_profile : UserProfile) (max_results : Option Nat) :
    List.Sorted (fun a b => b.match_score ≤ a.match_score)
        ((find_matches_st s need need_user_profile max_results).1)
      ∧ (∀ q : ℚ,
          (sort_by_score_desc (scored_kept s need need_user_profile)).filter
              (fun m => decide (m.match_score = q))
            = (scored_kept s need need_user_profile).filter
                (fun m => decide (m.match_score = q)))
      ∧ (find_matches_st s need need_user_profile max_results).1
          = (sort_by_score_desc (scored_kept s need need_user_profile)).take
              (effective_max max_results s.config)
      ∧ find_matches_st s need need_user_profile max_results
          = find_matches_st s need need_user_profile max_results := by
  refine ⟨?_, fun q => filter_sort_by_score_desc _ q, rfl, rfl⟩
  exact List.Pairwise.sublist (List.take_sublist _ _) (sorted_sort_by_score_desc _)

/-- C1: the combined match score is NOT clamped to [0,1] after combination.
`_score_match` returns the raw weighted sum, whose weights
(0.3 + 0.4 + 0.3 + 0.3) total 1.3, contradicting the documented 0.0-to-1.0
range of `Match.match_score`: on the concrete failing input (identical
need/capability token sets, proficiency 1, capability-pair overlap at the 0.2
sweet spot, no feasibility penalties, empty history) the score evaluates to
1.3 > 1. -/
theorem combined_score_not_clamped :
    m_big.match_score = 13/10 ∧ (1:ℚ) < m_big.match_score := by
  refine ⟨eval_score_big, ?_⟩
  rw [eval_score_big]
  norm_num

/-- C5 counterexample: indexing the same profile twice does not leave the
capability index in the state reached by indexing it once — the postings
under the profile's type key are duplicated, not replaced. -/
theorem index_not_idempotent_cx :
    index_user_profile (index_user_profile empty_index prof_single) prof_single ("type:skill")
      ≠ index_user_profile empty_index prof_single ("type:skill") := by
  intro h
  have h2 := congrArg List.length h
  have hL : (index_user_profile (index_user_profile empty_index prof_single) prof_single
      ("type:skill")).length = 2 := by decide
  have hR : (index_user_profile empty_index prof_single ("type:skill")).length = 1 := by decide
  rw [hL, hR] at h2
  exact absurd h2 (by norm_num)

/-- C5 amended: `index_user_profile` is not idempotent: re-indexing a profile
appends a second copy of the profile's postings under every key instead of
replacing the existing ones (deduplication only happens later, at retrieval,
keyed by `(user_id, capability_id)`). -/
theorem index_reindex_appends (idx : CapabilityIndex) (p : UserProfile) (k : String) :
    index_user_profile (index_user_profile idx p) p k
      = idx k ++ postings_for p k ++ postings_for p k := by
  rw [index_user_profile_apply, index_user_profile_apply]

/-- C6 counterexample: a profile with zero capabilities paired with a
non-empty profile yields complementarity 0.6, not the neutral 0.5 the claim
asserts for "either profile has zero capabilities". -/
theorem complementarity_empty_profile_cx :
    prof_empty.capabilities = []
      ∧ compute_complementarity prof_empty prof_b = 3/5
      ∧ compute_complementarity prof_empty prof_b ≠ 5/10 := by
  have h1 : (cap_pairs prof_empty ∩ cap_pairs prof_b).card = 0 := by decide
  have h2 : (cap_pairs prof_empty ∪ cap_pairs prof_b).card = 3 := by decide
  have h3 : compute_complementarity prof_empty prof_b = 3/5 := by
    simp only [compute_complementarity, h1, h2]
    norm_num
    rw [abs_of_nonneg (by norm_num : (0:ℚ) ≤ 1/5)]
    rw [show (1:ℚ) - 1/5 * 2 = 3/5 by norm_num]
    exact max_eq_right (by norm_num)
  refine ⟨rfl, h3, ?_⟩
  rw [h3]
  norm_num

/-- C6 amended: the complementarity sub-score equals
`clamp(1 − 2·|overlap_ratio − 0.20|, 0, 1)` over the `(type, name)` pair sets
and equals the neutral 0.5 exactly when BOTH profiles contribute no
capability pairs (empty union) — not when either profile is empty; whenever
the two pair sets are disjoint but not both empty (overlap ratio 0, which
includes the one-empty-profile case), the sub-score is 0.6. -/
theorem complementarity_neutral_amended :
    ∀ profile1 profile2 : UserProfile,
      compute_complementarity profile1 profile2 = complementarity_spec profile1 profile2
        ∧ (cap_pairs profile1 ∩ cap_pairs profile2 = ∅ →
            cap_pairs profile1 ∪ cap_pairs profile2 ≠ ∅ →
            compute_complementarity profile1 profile2 = 3/5)
        ∧ (cap_pairs profile1 = ∅ → cap_pairs profile2 = ∅ →
            compute_complementarity profile1 profile2 = 5/10) := by
  intro profile1 profile2
  refine ⟨?_, ?_, ?_⟩
  · simp only [compute_complementarity, complementarity_spec]
    by_cases h : cap_pairs profile1 ∪ cap_pairs profile2 = ∅
    · rw [if_pos (by rw [h, Finset.card_empty]), if_pos h]
    · rw [if_neg (fun hc => h (Finset.card_eq_zero.1 hc)), if_neg h, mul_comm]
  · intro hi hu
    simp only [compute_complementarity, hi, Finset.card_empty]
    rw [if_neg (fun hc => hu (Finset.card_eq_zero.1 hc))]
    rw [Nat.cast_zero, zero_div, zero_sub, abs_neg, abs_of_nonneg (by norm_num)]
    norm_num
  · intro h1 h2
    simp only [compute_complementarity, h1, h2, Finset.empty_union, Finset.card_empty]
    norm_num

/-- C6 witness: instantiating the disjoint-pairs case at a profile with zero
capabilities against the non-empty `prof_b` gives 0.6. -/
theorem complementarity_neutral_amended_witness :
    compute_complementarity prof_empty prof_b = 3/5 :=
  (complementarity_neutral_amended prof_empty prof_b).2.1 (by decide) (by decide)

/-- C7 counterexample: recording five successful outcomes for a
`(skill : skill)` match whose `match_score` is 0.4 makes a subsequent score of
the same type pair strictly LOWER than with empty history, not strictly
higher — the boost depends only on the average past `match_score`, and the
recorded success flag is never consulted. -/
theorem historical_boost_not_higher_cx :
    (score_match defaultMatchingConfig state_five.match_history need_alpha prof_a
        cap_alpha prof_b).match_score
      < (score_match defaultMatchingConfig [] need_alpha prof_a cap_alpha
          prof_b).match_score := by
  have hh : state_five.match_history = [m_rec, m_rec, m_rec, m_rec, m_rec] := rfl
  rw [hh]
  have hc : decide (m_rec.need.type = need_alpha.type
      ∧ m_rec.capability.type = cap_alpha.type) = true := by decide
  have hfil : List.filter
      (fun m => decide (m.need.type = need_alpha.type ∧ m.capability.type = cap_alpha.type))
      [m_rec, m_rec, m_rec, m_rec, m_rec] = [m_rec, m_rec, m_rec, m_rec, m_rec] := by
    rw [List.filter_cons, if_pos hc, List.filter_cons, if_pos hc, List.filter_cons, if_pos hc,
        List.filter_cons, if_pos hc, List.filter_cons, if_pos hc]
    rfl
  have hms : m_rec.match_score = 2/5 := rfl
  have hb : apply_historical_learning [m_rec, m_rec, m_rec, m_rec, m_rec] need_alpha cap_alpha
      = -(1/50) := by
    simp only [apply_historical_learning, hfil, List.isEmpty_cons, Bool.false_eq_true,
      if_false]
    simp only [List.map_cons, List.map_nil, hms, List.sum_cons, List.sum_nil,
      List.length_cons, List.length_nil]
    norm_num
  rw [score_match_match_score, score_match_match_score, eval_hist_nil, hb]
  have h1 : (-((1:ℚ)/50)) * (1/10) < 0 * (1/10) := by norm_num
  exact add_lt_add_left h1 _

/-- C7 amended: `learn_from_outcome` appends the recorded match to the shared
history, and a later scoring call of the same `(need.type, capability.type)`
pair differs from the identical empty-history call by exactly
`(avg_past_match_score − 0.5) / 50`: it is strictly higher iff the average
recorded `match_score` of the similar matches exceeds 0.5 (the recorded
success flag is not consulted by the boost), not unconditionally. -/
theorem historical_learning_amended :
    (∀ (s : MatcherState) (m : Match) (success : Bool),
        (learn_from_outcome s m success).match_history = s.match_history ++ [m])
      ∧ ∀ (config : MatchingConfig) (hist : List Match) (need : Need) (p1 : UserProfile)
          (cap : Capability) (p2 : UserProfile),
          similar_matches_of hist need cap ≠ [] →
          ((score_match config hist need p1 cap p2).match_score
              = (score_match config [] need p1 cap p2).match_score
                + (avg_score_of hist need cap - 5/10) * (1/50)
            ∧ ((score_match config [] need p1 cap p2).match_score
                < (score_match config hist need p1 cap p2).match_score
              ↔ 5/10 < avg_score_of hist need cap)) := by
  refine ⟨fun s m success => rfl, ?_⟩
  intro config hist need p1 cap p2 hsim
  have hne : hist ≠ [] := by
    intro he
    subst he
    exact hsim rfl
  have hfold : List.filter
      (fun m => decide (m.need.type = need.type ∧ m.capability.type = cap.type)) hist
      = similar_matches_of hist need cap := rfl
  have hb : apply_historical_learning hist need cap
      = (avg_score_of hist need cap - 5/10) * (2/10) := by
    simp only [apply_historical_learning]
    rw [if_neg (fun hi => hne (List.isEmpty_iff.1 hi))]
    rw [hfold]
    rw [if_neg (fun hi => hsim (List.isEmpty_iff.1 hi))]
    rfl
  rw [score_match_match_score, score_match_match_score, eval_hist_nil, hb]
  constructor
  · ring
  · constructor
    · intro h
      nlinarith [h]
    · intro h
      nlinarith [h]

/-- C7 witness: instantiating the amended statement with a one-element
history of the recorded `(skill : skill)` match. -/
theorem historical_learning_amended_witness :
    (score_match defaultMatchingConfig [m_rec] need_alpha prof_a cap_alpha
        prof_b).match_score
      = (score_match defaultMatchingConfig [] need_alpha prof_a cap_alpha
          prof_b).match_score
        + (avg_score_of [m_rec] need_alpha cap_alpha - 5/10) * (1/50) := by
  have hsim1 : similar_matches_of [m_rec] need_alpha cap_alpha = [m_rec] := by
    rw [similar_matches_of, List.filter_cons, if_pos (by decide)]
    rfl
  exact (historical_learning_amended.2 defaultMatchingConfig [m_rec] need_alpha prof_a
    cap_alpha prof_b (by rw [hsim1]; exact List.cons_ne_nil _ _)).1

/-- C8 counterexample: the confidence interval does not always bracket the
match score.  For the concrete engine-produced match `m_big`
(`match_score = 1.3`, which the unclamped combination can reach), the upper
endpoint is clamped to 1, strictly below the score. -/
theorem confidence_interval_not_bracketing_cx :
    ¬ (m_big.match_score ≤ (estimate_confidence_interval m_big).2) := by
  have hcnf0 : m_big.confidence = (m_big.match_score + 5/10 + 8/10 + 5/10) / 4 := rfl
  have hcnf : m_big.confidence = 31/40 := by
    rw [hcnf0, eval_score_big]
    norm_num
  intro h
  rw [estimate_confidence_interval] at h
  rw [eval_score_big, hcnf] at h
  have hmin : min (1:ℚ) (13/10 + 13/10 * (1 - 31/40) * (3/10)) = 1 :=
    min_eq_left (by norm_num)
  rw [hmin] at h
  norm_num at h

/-- C8 amended: the confidence interval equals
`match_score ± match_score·(1−confidence)·0.3` with each endpoint clamped to
[0,1] (as claimed), and it brackets the match score
(`lower ≤ match_score ≤ upper`) provided `0 ≤ match_score ≤ 1` and
`confidence ≤ 1` — the bracketing can fail only because the combined
`match_score` itself is not clamped and may exceed 1. -/
theorem confidence_interval_brackets_amended (m : Match)
    (h0 : 0 ≤ m.match_score) (h1 : m.match_score ≤ 1) (hc : m.confidence ≤ 1) :
    (estimate_confidence_interval m).1
        = max 0 (m.match_score - m.match_score * (1 - m.confidence) * (3/10))
      ∧ (estimate_confidence_interval m).2
        = min 1 (m.match_score + m.match_score * (1 - m.confidence) * (3/10))
      ∧ (estimate_confidence_interval m).1 ≤ m.match_score
      ∧ m.match_score ≤ (estimate_confidence_interval m).2 := by
  have hm : 0 ≤ m.match_score * (1 - m.confidence) * (3/10) :=
    mul_nonneg (mul_nonneg h0 (by linarith)) (by norm_num)
  refine ⟨rfl, rfl, ?_, ?_⟩
  · exact max_le h0 (by linarith)
  · exact le_min h1 (by linarith)

/-- C8 witness: the bracketing holds at a concrete match with score and
confidence 0.5. -/
theorem confidence_interval_brackets_witness :
    (estimate_confidence_interval m_half).1 ≤ m_half.match_score
      ∧ m_half.match_score ≤ (estimate_confidence_interval m_half).2 := by
  have hs : m_half.match_score = 1/2 := rfl
  have hc : m_half.confidence = 1/2 := rfl
  refine ⟨?_, ?_⟩
  · exact (confidence_interval_brackets_amended m_half (by rw [hs]; norm_num)
      (by rw [hs]; norm_num) (by rw [hc]; norm_num)).2.2.1
  · exact (confidence_interval_brackets_amended m_half (by rw [hs]; norm_num)
      (by rw [hs]; norm_num) (by rw [hc]; norm_num)).2.2.2

/-- C9 counterexample: the lexical `CapabilityMatcher` always scores with the
token/Jaccard similarity, yet its similarity provenance step carries
confidence 0.8 (not at most 0.6), and no degraded-mode uncertainty factor is
recorded on the match. -/
theorem similarity_step_confidence_cx :
    ((score_match defaultMatchingConfig [] need_alpha prof_a cap_alpha
          prof_b).provenance.steps.head?.map (fun st => st.confidence)) = some (8/10)
      ∧ ¬ ((8:ℚ)/10 ≤ 6/10)
      ∧ "No embeddings available (keyword fallback)"
          ∉ (score_match defaultMatchingConfig [] need_alpha prof_a cap_alpha
              prof_b).uncertainty_factors := by
  refine ⟨score_match_similarity_step _ _ _ _ _ _, by norm_num, ?_⟩
  rw [score_match_uncertainty_factors]
  have hu : identify_uncertainties [] prof_a prof_b
      = ["No historical match data for calibration", "Unknown timezone for need user",
          "Unknown timezone for capability user"] := by decide
  rw [hu]
  decide

/-- C9 amended: in the semantic engine, the keyword fallback (no need
embedding) returns a match whose similarity provenance step has confidence
0.6 and records the fallback as an uncertainty factor; but when a
(multi-element) embedding is available, `_score_match` raises `ValueError`
at the `if not need_embedding:` truthiness test and never returns a Match,
so the 0.9 step confidence is observable on a returned match only for a
degenerate one-element embedding; and in the lexical engine the similarity
step's confidence is always 0.8, with no degraded-mode uncertainty factor
recorded. -/
theorem similarity_step_confidence_amended :
    (∀ (config : MatchingConfig) (hist : List Match) (need : Need) (p1 : UserProfile)
        (cap : Capability) (p2 : UserProfile),
        ((score_match config hist need p1 cap p2).provenance.steps.head?.map
            (fun st => st.confidence)) = some (8/10))
      ∧ (∀ (config : SemanticMatchingConfig) (hist : List Match)
          (cos_sim : EmbeddingVec → EmbeddingVec → ℚ)
          (embed_capability : Capability → Option EmbeddingVec) (need : Need)
          (p1 : UserProfile) (cap : Capability) (p2 : UserProfile),
          ∃ m : Match,
            semantic_score_match config hist cos_sim embed_capability none need p1 cap p2
                = Except.ok m
              ∧ (m.provenance.steps.head?.map (fun st => st.confidence)) = some (6/10)
              ∧ "No embeddings available (keyword fallback)" ∈ m.uncertainty_factors)
      ∧ (∀ (config : SemanticMatchingConfig) (hist : List Match)
          (cos_sim : EmbeddingVec → EmbeddingVec → ℚ)
          (embed_capability : Capability → Option EmbeddingVec) (a b : ℚ)
          (rest : List ℚ) (need : Need) (p1 : UserProfile) (cap : Capability)
          (p2 : UserProfile),
          semantic_score_match config hist cos_sim embed_capability
              (some (a :: b :: rest)) need p1 cap p2
            = Except.error value_error_multi)
      ∧ (∀ (config : SemanticMatchingConfig) (hist : List Match)
          (cos_sim : EmbeddingVec → EmbeddingVec → ℚ)
          (embed_capability : Capability → Option EmbeddingVec) (x : ℚ) (need : Need)
          (p1 : UserProfile) (cap : Capability) (p2 : UserProfile),
          ∃ m : Match,
            semantic_score_match config hist cos_sim embed_capability (some [x]) need
                p1 cap p2 = Except.ok m
              ∧ (m.provenance.steps.head?.map (fun st => st.confidence)) = some (9/10)) := by
  refine ⟨fun config hist need p1 cap p2 => score_match_similarity_step _ _ _ _ _ _,
    ?_, ?_, ?_⟩
  · intro config hist cos_sim embed_capability need p1 cap p2
    exact ⟨_, rfl, rfl, by simp⟩
  · intro config hist cos_sim embed_capability a b rest need p1 cap p2
    rfl
  · intro config hist cos_sim embed_capability x need p1 cap p2
    exact ⟨_, rfl, rfl⟩
